import Mathlib

/-!
Verification of the schema-driven argument templating, response extraction,
result classification and selection-state persistence logic of
src/htb_mcp_client.py, against the natural-language specification.

The Python values handled by this program (JSON payloads, schema
descriptors, selection entities) are embedded as the inductive type
JSON below.  Python dicts are association lists in insertion order;
Python floats are represented by their integral value, since the only
float this logic ever constructs is the 0.0 placeholder and no claim
depends on non-integral float arithmetic.
-/

/-- A JSON-like Python value. -/
inductive JSON where
  | null : JSON
  | bool : Bool → JSON
  | int : Int → JSON
  | float : Int → JSON
  | str : String → JSON
  | arr : List JSON → JSON
  | obj : List (String × JSON) → JSON

/-- An entity (event, team or challenge) is a Python dict: an association
list of string keys and JSON values, in insertion order.  Per the
SelectionState invariant of the spec, a selection field is either None
(modelled as Option.none) or such a dict. -/
abbrev Entity := List (String × JSON)

/-- Python truthiness of a JSON value: None, False, 0, empty string,
empty list and empty dict are falsy. -/
def truthy : JSON → Bool
  | .null => false
  | .bool b => b
  | .int n => n != 0
  | .float n => n != 0
  | .str s => s != ""
  | .arr xs => !xs.isEmpty
  | .obj kvs => !kvs.isEmpty

/-- Digits of a Python integer literal string, after the optional sign:
a nonempty run of decimal digits in which single underscores may appear
between two digits (as accepted by the Python int constructor).
Accumulator carries the value read so far; the head of the remaining
input has already been checked to be a digit by pyDigits. -/
def pyDigitsAux : List Char → Nat → Option Nat
  | [], acc => some acc
  | c :: cs, acc =>
    if c.isDigit then pyDigitsAux cs (acc * 10 + (c.toNat - 48))
    else if c = '_' then
      match cs with
      | c2 :: cs2 =>
        if c2.isDigit then pyDigitsAux cs2 (acc * 10 + (c2.toNat - 48)) else none
      | [] => none
    else none

/-- Parse a nonempty digit run (with Python underscore grouping). -/
def pyDigits : List Char → Option Nat
  | [] => none
  | c :: cs => if c.isDigit then pyDigitsAux cs (c.toNat - 48) else none

/-- Surrounding whitespace removal, as the Python int constructor
applies to its string argument before parsing. -/
def stripWhitespace (cs : List Char) : List Char :=
  ((cs.dropWhile Char.isWhitespace).reverse.dropWhile Char.isWhitespace).reverse

/-- Python int(s) on a string: strip surrounding whitespace, accept an
optional sign followed by digits; none models a ValueError. -/
def pyIntOfString (s : String) : Option Int :=
  match stripWhitespace s.toList with
  | '+' :: rest => (pyDigits rest).map Int.ofNat
  | '-' :: rest => (pyDigits rest).map (fun n => -(Int.ofNat n))
  | cs => (pyDigits cs).map Int.ofNat

/-- Python int(x) on a JSON value; none models a ValueError or TypeError
(raised for None, lists and dicts, and for unparsable strings). -/
def pyInt : JSON → Option Int
  | .int n => some n
  | .bool b => some (if b then 1 else 0)
  | .float n => some n
  | .str s => pyIntOfString s
  | _ => none

mutual

/-- Python repr of a JSON value (strings are quoted). -/
def pyRepr : JSON → String
  | .null => "None"
  | .bool true => "True"
  | .bool false => "False"
  | .int n => toString n
  | .float n => toString n ++ ".0"
  | .str s => "\x27" ++ s ++ "\x27"
  | .arr xs => "[" ++ String.intercalate ", " (pyReprList xs) ++ "]"
  | .obj kvs => "\x7b" ++ String.intercalate ", " (pyReprPairs kvs) ++ "\x7d"

/-- Reprs of the elements of a Python list. -/
def pyReprList : List JSON → List String
  | [] => []
  | x :: xs => pyRepr x :: pyReprList xs

/-- Reprs of the key-value pairs of a Python dict. -/
def pyReprPairs : List (String × JSON) → List String
  | [] => []
  | (k, v) :: kvs => ("\x27" ++ k ++ "\x27: " ++ pyRepr v) :: pyReprPairs kvs

end

/-- Python str(x) on a JSON value: the string itself for strings,
otherwise the repr (str and repr agree on None, bools, ints, floats,
lists and dicts). -/
def pyStr : JSON → String
  | .str s => s
  | v => pyRepr v

/-- The fields of one property descriptor that the template generator
reads: prop_details.get("type", "string") and the presence and value of
prop_details["default"]. -/
structure PropDetails where
  type? : Option String
  default? : Option JSON

/-- The part of a tool input schema that the template generator reads:
the optional properties mapping (schema may also carry a required list,
which _generate_template_from_schema assigns but never uses). -/
structure Schema where
  properties : Option (List (String × PropDetails))

/-- The type-appropriate placeholder chain at the end of
_generate_template_from_schema (lines 346-359 of the source). -/
def typePlaceholder (propType : String) : JSON :=
  if propType = "string" then .str "<string>"
  else if propType = "integer" then .int 0
  else if propType = "number" then .float 0
  else if propType = "boolean" then .bool false
  else if propType = "array" then .arr []
  else if propType = "object" then .obj []
  else .str "<value>"

/-- Coercion of a selected id to the declared property type (lines
325-331 and 336-342): int(event_id) when the declared type is integer,
falling back to 0 on ValueError or TypeError, else str(event_id). -/
def coerceId (idVal : JSON) (propType : String) : JSON :=
  if propType = "integer" then
    match pyInt idVal with
    | some n => .int n
    | none => .int 0
  else .str (pyStr idVal)

/-- The guard of the event auto-fill branch (line 323):
selected_event and prop_name in ["ctf_id", "id", "event_id"]
and "id" in selected_event. -/
def eventIdMatch (ev : Option Entity) (propName : String) : Bool :=
  match ev with
  | none => false
  | some e =>
    !e.isEmpty && (propName = "ctf_id" || propName = "id" || propName = "event_id")
      && (List.lookup "id" e).isSome

/-- The guard of the challenge auto-fill branch (line 334):
selected_challenge and prop_name in ["challenge_id", "id"]
and "id" in selected_challenge. -/
def challengeIdMatch (ch : Option Entity) (propName : String) : Bool :=
  match ch with
  | none => false
  | some c =>
    !c.isEmpty && (propName = "challenge_id" || propName = "id")
      && (List.lookup "id" c).isSome

/-- The id field of a selection; only read under a successful match. -/
def selectedId : Option Entity → JSON
  | none => .null
  | some e => (List.lookup "id" e).getD .null

/-- The value_placeholder computation for one property (lines 315-359):
the first matching rule of auto_exec_args membership, event auto-fill,
challenge auto-fill, schema default, then the type placeholder. -/
def valuePlaceholder (propName : String) (d : PropDetails)
    (autoExecArgs : List (String × JSON)) (ev ch : Option Entity) : JSON :=
  let propType := d.type?.getD "string"
  match List.lookup propName autoExecArgs with
  | some v => v
  | none =>
    if eventIdMatch ev propName then coerceId (selectedId ev) propType
    else if challengeIdMatch ch propName then coerceId (selectedId ch) propType
    else
      match d.default? with
      | some v => v
      | none => typePlaceholder propType

/-- ToolExecutionScreen._generate_template_from_schema (lines 301-363),
up to the final json.dumps serialization: the template dict built by
iterating the declared properties in schema order.  A missing schema or
a schema without a properties key yields the empty document. -/
def generateTemplateFromSchema (schema : Option Schema)
    (autoExecArgs : List (String × JSON)) (ev ch : Option Entity) :
    List (String × JSON) :=
  match schema with
  | none => []
  | some s =>
    match s.properties with
    | none => []
    | some props =>
      props.map (fun p => (p.1, valuePlaceholder p.1 p.2 autoExecArgs ev ch))

/-- One element of the content list of a raw tool result, as the
extraction loops distinguish them (lines 474-479, 783-788, 946-951):
an object carrying a type attribute and a text payload, a plain Python
string, or anything else (skipped by both branches). -/
inductive Block where
  | typed : String → String → Block
  | strBlock : String → Block
  | other : Block

/-- A raw tool or resource result.  content? is some blocks when the
value has a content attribute that is a list, none otherwise; repr is
the best-effort Python str() rendering of the whole value. -/
structure RawData where
  content? : Option (List Block)
  repr : String

/-- The text accumulation loop of the extraction code: full_text starts
empty and each block appends its text when block.type == "text", or
itself when the block is a plain string. -/
def contentText : List Block → String → String
  | [], fullText => fullText
  | b :: bs, fullText =>
    match b with
    | .typed t s => contentText bs (if t = "text" then fullText ++ s else fullText)
    | .strBlock s => contentText bs (fullText ++ s)
    | .other => contentText bs fullText

/-- The extractText contract of the spec as the code implements it
(ChallengeSelectionScreen.process_challenges lines 472-479 and the
identical loops in process_teams and process_events): when the input
has no list-valued content attribute the guard at line 474 fails and
full_text stays empty. -/
def extractText (r : RawData) : String :=
  match r.content? with
  | some bs => contentText bs ""
  | none => ""

/-- Modelled from the spec: the best-effort string conversion of the
whole input that the spec says extractText returns on unexpected
shapes — Python str() of the raw value. -/
def pyStrOfRaw (r : RawData) : String :=
  r.repr

/-- Whether a content block is of kind text in the sense of the
RawResult data model of the spec (contentBlocks tagged text or other);
a plain-string block falls outside that tagging. -/
def textBlockText : Block → Option String
  | .typed t s => if t = "text" then some s else none
  | _ => none

/-- Whether a block fits the kind-tagged contentBlocks model of the
spec; plain Python strings in the content list do not. -/
def isKindTagged : Block → Bool
  | .strBlock _ => false
  | _ => true

/-- Python isinstance(x, dict). -/
def isDict : JSON → Bool
  | .obj _ => true
  | _ => false

/-- The displayed cells of one challenge row (lines 500-507):
str(chall.get("id", "")), chall.get("name", "Unknown"),
str(chall.get("challenge_category_id", "")),
chall.get("difficulty", ""), str(chall.get("points", "")), and
"Yes" or "No" from the truthiness of chall.get("solved"). -/
def challengeRowOf (kvs : Entity) : String × JSON × String × JSON × String × String :=
  (pyStr ((List.lookup "id" kvs).getD (.str "")),
   (List.lookup "name" kvs).getD (.str "Unknown"),
   pyStr ((List.lookup "challenge_category_id" kvs).getD (.str "")),
   (List.lookup "difficulty" kvs).getD (.str ""),
   pyStr ((List.lookup "points" kvs).getD (.str "")),
   if truthy ((List.lookup "solved" kvs).getD .null) then "Yes" else "No")

/-- The rows added to the challenges table by the loop at lines
498-507: one row per element that is a dict, in order; elements that
are not dicts are skipped by the isinstance guard. -/
def challengeRows (cs : List JSON) :
    List (String × JSON × String × JSON × String × String) :=
  cs.filterMap (fun c =>
    match c with
    | .obj kvs => some (challengeRowOf kvs)
    | _ => none)

/-- The displayed cells of one event row (lines 968-972):
str(event.get("id", "")), event.get("name", "Unknown"),
event.get("status", "Unknown"). -/
def eventRowOf (kvs : Entity) : String × JSON × JSON :=
  (pyStr ((List.lookup "id" kvs).getD (.str "")),
   (List.lookup "name" kvs).getD (.str "Unknown"),
   (List.lookup "status" kvs).getD (.str "Unknown"))

/-- The rows added to the events table by the loop at lines 967-972. -/
def eventRows (es : List JSON) : List (String × JSON × JSON) :=
  es.filterMap (fun e =>
    match e with
    | .obj kvs => some (eventRowOf kvs)
    | _ => none)

/-- The displayed cells of one team row (lines 805-809):
str(team.get("id", "")), team.get("name", "Unknown"),
str(team.get("captain_id", "Unknown")). -/
def teamRowOf (kvs : Entity) : String × JSON × String :=
  (pyStr ((List.lookup "id" kvs).getD (.str "")),
   (List.lookup "name" kvs).getD (.str "Unknown"),
   pyStr ((List.lookup "captain_id" kvs).getD (.str "Unknown")))

/-- The rows added to the teams table by the loop at lines 804-809. -/
def teamRows (ts : List JSON) : List (String × JSON × String) :=
  ts.filterMap (fun t =>
    match t with
    | .obj kvs => some (teamRowOf kvs)
    | _ => none)

/-- The view a tool result is rendered in. -/
inductive ViewKind where
  | eventList : ViewKind
  | challengeList : ViewKind
  | teamList : ViewKind
  | generic : ViewKind
deriving DecidableEq

/-- The dispatch in ToolExecutionScreen.run_tool (lines 379-402): the
screen pushed for a result depends only on self.tool.name; the
start_container branch also pushes the generic ResultScreen (after a
notification).  The raw result is passed to the chosen screen but never
inspected by the dispatch. -/
def classify (toolName : String) (result : RawData) : ViewKind :=
  if toolName = "list_ctf_events" then .eventList
  else if toolName = "retrieve_ctf" then .challengeList
  else if toolName = "retrieve_my_teams" then .teamList
  else if toolName = "start_container" then .generic
  else .generic

/-- The persisted client state dict of HTBMCPClient (lines 55-61),
with the selection fields held to the SelectionState invariant of the
spec: None or a dict. -/
structure ClientState where
  selected_event : Option Entity
  selected_team : Option Entity
  selected_challenge : Option Entity
  challenges_cache : List JSON
  container_status : Option Entity

/-- The default state built in HTBMCPClient.__init__ before load_state
runs. -/
def initialClientState : ClientState :=
  { selected_event := none, selected_team := none, selected_challenge := none,
    challenges_cache := [], container_status := none }

/-- JSON encoding of a selection field as json.dump writes it: None or
the dict itself. -/
def encodeSel : Option Entity → JSON
  | none => .null
  | some e => .obj e

/-- HTBMCPClient.save_state (lines 74-80): the JSON document written to
the snapshot file, the state dict in insertion order. -/
def saveStateJSON (s : ClientState) : JSON :=
  .obj [("selected_event", encodeSel s.selected_event),
        ("selected_team", encodeSel s.selected_team),
        ("selected_challenge", encodeSel s.selected_challenge),
        ("challenges_cache", .arr s.challenges_cache),
        ("container_status", encodeSel s.container_status)]

/-- Decoding of a selection field read back from a snapshot written by
save_state: null loads as no selection, an object as that entity
(save_state writes no other shape into these fields). -/
def decodeSel : JSON → Option Entity
  | .obj e => some e
  | _ => none

/-- HTBMCPClient.load_state (lines 64-72): self.state.update(loaded) on
a successfully parsed object snapshot, so keys present in the snapshot
overwrite the current value and absent keys keep it; a snapshot that is
not an object takes the silent exception path and leaves the state
unchanged. -/
def loadState (current : ClientState) (snapshot : JSON) : ClientState :=
  match snapshot with
  | .obj kvs =>
    { selected_event :=
        match List.lookup "selected_event" kvs with
        | some v => decodeSel v
        | none => current.selected_event,
      selected_team :=
        match List.lookup "selected_team" kvs with
        | some v => decodeSel v
        | none => current.selected_team,
      selected_challenge :=
        match List.lookup "selected_challenge" kvs with
        | some v => decodeSel v
        | none => current.selected_challenge,
      challenges_cache :=
        match List.lookup "challenges_cache" kvs with
        | some (.arr xs) => xs
        | _ => current.challenges_cache,
      container_status :=
        match List.lookup "container_status" kvs with
        | some v => decodeSel v
        | none => current.container_status }
  | _ => current

/-- The selection fields HTBMCPApp.__init__ copies out of the client
state (lines 1453-1460). -/
structure AppState where
  selected_event : Option Entity
  selected_team : Option Entity
  selected_challenge : Option Entity
  container_status : Option Entity

/-- HTBMCPApp.__init__ (lines 1453-1460): the app selection fields are
loaded from the client state. -/
def appOfClient (c : ClientState) : AppState :=
  { selected_event := c.selected_event, selected_team := c.selected_team,
    selected_challenge := c.selected_challenge,
    container_status := c.container_status }

/-- EventSelectionScreen.select_event (lines 1001-1016): the selected
entity is stored in self.app.selected_event; no other selection field
is written. -/
def selectEvent (a : AppState) (e : Entity) : AppState :=
  { a with selected_event := some e }

/-- ChallengeSelectionScreen.select_challenge (lines 555-570): the
selected entity is stored in self.app.selected_challenge; no other
selection field is written. -/
def selectChallenge (a : AppState) (e : Entity) : AppState :=
  { a with selected_challenge := some e }

/-- HTBMCPApp.save_app_state (lines 1471-1477): the four app selection
fields are copied back into the client state dict (challenges_cache is
untouched); the result is what save_state then serializes. -/
def saveAppState (c : ClientState) (a : AppState) : ClientState :=
  { c with selected_event := a.selected_event, selected_team := a.selected_team,
           selected_challenge := a.selected_challenge,
           container_status := a.container_status }

/-! ## Helper lemmas -/

/-- Unfolding of String.join on a cons cell. -/
theorem join_cons (s : String) (ss : List String) :
    String.join (s :: ss) = s ++ String.join ss := by
  apply String.ext
  simp

/-- The extraction loop over kind-tagged blocks appends to its
accumulator exactly the joined texts of the text-kind blocks. -/
theorem contentText_tagged (bs : List Block) :
    ∀ acc, (∀ b ∈ bs, isKindTagged b = true) →
      contentText bs acc = acc ++ String.join (bs.filterMap textBlockText) := by
  induction bs with
  | nil => intro acc _; simp [contentText, String.join]
  | cons b bs ih =>
    intro acc h
    have hb := h b (List.mem_cons_self b bs)
    have hbs : ∀ x ∈ bs, isKindTagged x = true := fun x hx => h x (List.mem_cons_of_mem b hx)
    cases b with
    | typed t s =>
      by_cases ht : t = "text"
      · simp [contentText, ht, textBlockText, ih _ hbs, join_cons, String.append_assoc]
      · simp [contentText, ht, textBlockText, ih _ hbs]
    | strBlock s => simp [isKindTagged] at hb
    | other => simp [contentText, textBlockText, ih _ hbs]

/-! ## Claims -/

/-- C1: for every schema with a properties mapping of N declared
properties, and every combination of overrides (auto_exec_args) and
selection state, the generated template has exactly those N property
names as keys, in the declared order; overrides and selections change
values only, never the key set. -/
theorem C1_template_keys (props : List (String × PropDetails))
    (args : List (String × JSON)) (ev ch : Option Entity)
    (h : (props.map Prod.fst).Nodup) :
    (generateTemplateFromSchema (some ⟨some props⟩) args ev ch).map Prod.fst
      = props.map Prod.fst := by
  simp [generateTemplateFromSchema, List.map_map]

/-- Witness for C1: a concrete two-property schema with an override for
a key outside the schema still yields exactly the two declared keys. -/
theorem C1_template_keys_witness :
    (([("a", PropDetails.mk none none),
       ("b", PropDetails.mk (some "integer") none)].map Prod.fst).Nodup)
  ∧ (generateTemplateFromSchema
        (some ⟨some [("a", PropDetails.mk none none),
                     ("b", PropDetails.mk (some "integer") none)]⟩)
        [("zzz", JSON.int 1)] (some [("id", JSON.int 7)]) none).map Prod.fst
      = ["a", "b"] := by
  refine ⟨by decide, ?_⟩
  rw [C1_template_keys _ _ _ _ (by decide)]
  rfl

/-- C2 counterexample: a dict entity lacking an id field is NOT dropped
from the challenge list view; it is displayed as a row whose ID cell is
the empty string. -/
theorem C2_rows_counterexample :
    List.lookup "id" [("name", JSON.str "X")] = none
  ∧ challengeRows [JSON.obj [("name", JSON.str "X")]]
      = [("", JSON.str "X", "", JSON.str "", "", "No")] :=
  ⟨rfl, rfl⟩

/-- C2 amended: in every list view (challenges, events, teams) an
element that is not a dict is dropped from the displayed table, and
every dict element is displayed as one row, in order, whether or not it
has an id field (a missing id renders as an empty ID cell). -/
theorem C2_rows_amended :
    (∀ v vs, isDict v = false →
        challengeRows (v :: vs) = challengeRows vs
      ∧ eventRows (v :: vs) = eventRows vs
      ∧ teamRows (v :: vs) = teamRows vs)
  ∧ (∀ kvs vs,
        challengeRows (JSON.obj kvs :: vs) = challengeRowOf kvs :: challengeRows vs
      ∧ eventRows (JSON.obj kvs :: vs) = eventRowOf kvs :: eventRows vs
      ∧ teamRows (JSON.obj kvs :: vs) = teamRowOf kvs :: teamRows vs) := by
  constructor
  · intro v vs h
    cases v
    case obj kvs => simp [isDict] at h
    all_goals exact ⟨rfl, rfl, rfl⟩
  · intro kvs vs
    exact ⟨rfl, rfl, rfl⟩

/-- Witness for C2 amended: a plain-string element produces no row. -/
theorem C2_rows_amended_witness :
    isDict (JSON.str "oops") = false
  ∧ challengeRows [JSON.str "oops"] = challengeRows [] :=
  ⟨rfl, (C2_rows_amended.1 (JSON.str "oops") [] rfl).1⟩

/-- C3: per-property precedence of the template generator.  An
overrides entry wins outright; otherwise, for the property name id
(matched by both auto-fill rules) a selected event carrying an id
determines the placeholder whatever the selected challenge is; the
challenge rule applies only when no event match applied; then the
schema default; then the type placeholder. -/
theorem C3_precedence :
    (∀ p d args ev ch v, List.lookup p args = some v →
        valuePlaceholder p d args ev ch = v)
  ∧ (∀ d args e ch i, List.lookup "id" args = none → List.lookup "id" e = some i →
        valuePlaceholder "id" d args (some e) ch = coerceId i (d.type?.getD "string"))
  ∧ (∀ p d args ch, List.lookup p args = none → challengeIdMatch ch p = true →
        valuePlaceholder p d args none ch
          = coerceId (selectedId ch) (d.type?.getD "string"))
  ∧ (∀ p d args ev ch v, List.lookup p args = none → eventIdMatch ev p = false →
        challengeIdMatch ch p = false → d.default? = some v →
        valuePlaceholder p d args ev ch = v)
  ∧ (∀ p d args ev ch, List.lookup p args = none → eventIdMatch ev p = false →
        challengeIdMatch ch p = false → d.default? = none →
        valuePlaceholder p d args ev ch = typePlaceholder (d.type?.getD "string")) := by
  refine ⟨?_, ?_, ?_, ?_, ?_⟩
  · intro p d args ev ch v h
    simp [valuePlaceholder, h]
  · intro d args e ch i h1 h2
    have he : e.isEmpty = false := by cases e <;> simp_all [List.lookup]
    simp [valuePlaceholder, h1, eventIdMatch, he, h2, selectedId]
  · intro p d args ch h1 h2
    simp [valuePlaceholder, h1, eventIdMatch, h2]
  · intro p d args ev ch v h1 h2 h3 h4
    simp [valuePlaceholder, h1, h2, h3, h4]
  · intro p d args ev ch h1 h2 h3 h4
    simp [valuePlaceholder, h1, h2, h3, h4]

/-- Witness for C3: with both an event (id 5) and a challenge (id 9)
selected, the property named id takes the event id. -/
theorem C3_precedence_witness :
    List.lookup "id" ([] : List (String × JSON)) = none
  ∧ valuePlaceholder "id" ⟨some "integer", none⟩ []
        (some [("id", JSON.int 5)]) (some [("id", JSON.int 9)])
      = coerceId (JSON.int 5) "integer" :=
  ⟨rfl, C3_precedence.2.1 ⟨some "integer", none⟩ [] [("id", JSON.int 5)]
      (some [("id", JSON.int 9)]) (JSON.int 5) rfl rfl⟩

/-- C4: a property ctf_id of declared type integer with a selected
event whose id is the string 42 gets the integer placeholder 42; with
an unparsable event id string it gets 0 — whatever challenge is
selected. -/
theorem C4_integer_coercion (ch : Option Entity) :
    generateTemplateFromSchema
        (some ⟨some [("ctf_id", ⟨some "integer", none⟩)]⟩) []
        (some [("id", JSON.str "42")]) ch
      = [("ctf_id", JSON.int 42)]
  ∧ generateTemplateFromSchema
        (some ⟨some [("ctf_id", ⟨some "integer", none⟩)]⟩) []
        (some [("id", JSON.str "abc")]) ch
      = [("ctf_id", JSON.int 0)] :=
  ⟨rfl, rfl⟩

/-- C5: selecting the event with id 7 and name Cyber Apocalypse, then
generating a template for a one-property schema event_id of type
integer, yields exactly that key bound to the integer 7; and loading a
fresh default state from the snapshot that save_app_state persisted
(as on process restart) still reports that selected event, whose id
field is 7. -/
theorem C5_select_generate_persist (a : AppState) (c : ClientState) :
    generateTemplateFromSchema (some ⟨some [("event_id", ⟨some "integer", none⟩)]⟩) []
        (selectEvent a [("id", JSON.int 7), ("name", JSON.str "Cyber Apocalypse")]).selected_event
        (selectEvent a [("id", JSON.int 7), ("name", JSON.str "Cyber Apocalypse")]).selected_challenge
      = [("event_id", JSON.int 7)]
  ∧ (loadState initialClientState
        (saveStateJSON (saveAppState c
          (selectEvent a [("id", JSON.int 7), ("name", JSON.str "Cyber Apocalypse")])))).selected_event
      = some [("id", JSON.int 7), ("name", JSON.str "Cyber Apocalypse")]
  ∧ List.lookup "id" [("id", JSON.int 7), ("name", JSON.str "Cyber Apocalypse")]
      = some (JSON.int 7) :=
  ⟨rfl, rfl, rfl⟩

/-- C6: the view is a static function of the tool name alone —
identical for any two payloads — with list_ctf_events, retrieve_ctf and
retrieve_my_teams mapped to their list views and every other name,
start_container included, to the generic view. -/
theorem C6_classify_static (name : String) (r r2 : RawData) :
    classify name r = classify name r2
  ∧ classify "list_ctf_events" r = ViewKind.eventList
  ∧ classify "retrieve_ctf" r = ViewKind.challengeList
  ∧ classify "retrieve_my_teams" r = ViewKind.teamList
  ∧ (name ≠ "list_ctf_events" → name ≠ "retrieve_ctf" → name ≠ "retrieve_my_teams" →
      classify name r = ViewKind.generic) := by
  refine ⟨rfl, rfl, rfl, rfl, ?_⟩
  intro h1 h2 h3
  simp [classify, h1, h2, h3]

/-- Witness for C6: the unknown tool name foo classifies as generic on
a concrete payload. -/
theorem C6_classify_static_witness :
    ("foo" : String) ≠ "list_ctf_events"
  ∧ classify "foo" ⟨none, "x"⟩ = ViewKind.generic :=
  ⟨by decide,
   (C6_classify_static "foo" ⟨none, "x"⟩ ⟨none, "x"⟩).2.2.2.2
     (by decide) (by decide) (by decide)⟩

/-- C7 counterexample: on an input with no content list the extraction
returns the empty string, not the best-effort string conversion of the
whole input claimed by the spec. -/
theorem C7_extract_counterexample :
    extractText ⟨none, "CallToolResult(meta=None)"⟩ = ""
  ∧ pyStrOfRaw ⟨none, "CallToolResult(meta=None)"⟩ = "CallToolResult(meta=None)"
  ∧ extractText ⟨none, "CallToolResult(meta=None)"⟩
      ≠ pyStrOfRaw ⟨none, "CallToolResult(meta=None)"⟩ :=
  ⟨rfl, rfl, by decide⟩

/-- C7 amended: extractText is total (the surrounding try/except means
it never raises), and on an unexpectedly shaped input — one with no
list-valued content attribute — it returns the empty string. -/
theorem C7_extract_amended (r : RawData) (h : r.content? = none) :
    extractText r = "" := by
  cases r with
  | mk content? repr =>
    cases h
    rfl

/-- Witness for C7 amended: a concrete malformed input extracts to the
empty string. -/
theorem C7_extract_amended_witness :
    (RawData.mk none "junk").content? = none
  ∧ extractText (RawData.mk none "junk") = "" :=
  ⟨rfl, C7_extract_amended (RawData.mk none "junk") rfl⟩

/-- C8: over the kind-tagged content blocks of the RawResult model,
extractText concatenates in block order the text of every text-kind
block, skips other kinds, and returns the empty string when there are
no text blocks; in particular text blocks a and b plus one non-text
block yield ab. -/
theorem C8_extract_concat :
    (∀ bs rep, (∀ b ∈ bs, isKindTagged b = true) →
      extractText ⟨some bs, rep⟩ = String.join (bs.filterMap textBlockText))
  ∧ extractText ⟨some [Block.typed "text" "a", Block.typed "text" "b", Block.other], ""⟩
      = "ab"
  ∧ extractText ⟨some [Block.other, Block.typed "image" "zz"], ""⟩ = "" := by
  refine ⟨?_, rfl, rfl⟩
  intro bs rep h
  show contentText bs "" = _
  rw [contentText_tagged bs "" h, String.empty_append]

/-- Witness for C8: the concrete two-text-plus-one-other block list. -/
theorem C8_extract_concat_witness :
    (∀ b ∈ [Block.typed "text" "a", Block.typed "text" "b", Block.other],
      isKindTagged b = true)
  ∧ extractText ⟨some [Block.typed "text" "a", Block.typed "text" "b", Block.other], "r"⟩
      = String.join ([Block.typed "text" "a", Block.typed "text" "b",
          Block.other].filterMap textBlockText) :=
  ⟨by decide, C8_extract_concat.1 _ "r" (by decide)⟩

/-- C9: selecting a challenge writes only the selected-challenge field:
event, team and container status are unchanged in the app state, and
(given the app and client state agree beforehand, as the program
maintains) the client state that save_app_state then persists equals
the prior client state with only selected_challenge replaced — as does
the JSON snapshot written to disk. -/
theorem C9_select_challenge_frame (a : AppState) (c : ClientState) (e : Entity)
    (h1 : c.selected_event = a.selected_event)
    (h2 : c.selected_team = a.selected_team)
    (h3 : c.container_status = a.container_status) :
    (selectChallenge a e).selected_event = a.selected_event
  ∧ (selectChallenge a e).selected_team = a.selected_team
  ∧ (selectChallenge a e).container_status = a.container_status
  ∧ saveAppState c (selectChallenge a e) = { c with selected_challenge := some e }
  ∧ saveStateJSON (saveAppState c (selectChallenge a e))
      = saveStateJSON { c with selected_challenge := some e } := by
  have h4 : saveAppState c (selectChallenge a e) = { c with selected_challenge := some e } := by
    cases a; cases c; simp_all [saveAppState, selectChallenge]
  exact ⟨rfl, rfl, rfl, h4, congrArg saveStateJSON h4⟩

/-- Witness for C9: a concrete in-sync state pair. -/
theorem C9_select_challenge_frame_witness :
    initialClientState.selected_event = (AppState.mk none none none none).selected_event
  ∧ saveAppState initialClientState
        (selectChallenge (AppState.mk none none none none) [("id", JSON.int 3)])
      = { initialClientState with selected_challenge := some [("id", JSON.int 3)] } :=
  ⟨rfl, (C9_select_challenge_frame (AppState.mk none none none none)
      initialClientState [("id", JSON.int 3)] rfl rfl rfl).2.2.2.1⟩

/-- C10: a property descriptor with no type field behaves exactly as a
declared string type: the same placeholder for every combination of
overrides and selections, the string marker (not the generic value
marker) when no rule applies, and string coercion of a selected event
or challenge id. -/
theorem C10_missing_type_is_string :
    (∀ p dflt args ev ch,
        valuePlaceholder p ⟨none, dflt⟩ args ev ch
          = valuePlaceholder p ⟨some "string", dflt⟩ args ev ch)
  ∧ valuePlaceholder "nick" ⟨none, none⟩ [] none none = JSON.str "<string>"
  ∧ valuePlaceholder "id" ⟨none, none⟩ [] (some [("id", JSON.int 7)]) none
      = JSON.str "7"
  ∧ valuePlaceholder "challenge_id" ⟨none, none⟩ [] none (some [("id", JSON.int 9)])
      = JSON.str "9"
  ∧ JSON.str "<string>" ≠ JSON.str "<value>" := by
  refine ⟨fun p dflt args ev ch => rfl, rfl, rfl, rfl, ?_⟩
  intro h
  injection h with h2
  exact absurd h2 (by decide)
